import Mathlib

set_option maxRecDepth 10000

/-!
Verification of the rule-based Chinese AI-text detector and humanizer
(`ai_humanizer/detector.py`, `ai_humanizer/humanizer.py`,
`ai_humanizer/rules/patterns.py`).

The embedding is shallow:
* Python strings are `String` / `List Char`; `len` is the character count.
* Python floats are modelled as exact rationals `ℚ`; `round(x, 2)` is
  modelled as decimal rounding half-to-even (`round2`).
* The word-segmentation collaborator (`jieba.cut`) is a parameter
  `seg : String → List String`, as the design treats the tokenizer as an
  external collaborator.
* The randomness source is a parameter `Rng` (an indexed stream of picks
  and uniform draws), as the design treats randomness as an external
  collaborator; one tick of the stream is consumed per primitive draw.
* The lexicon module (`rules/ai_keywords.py`, `rules/replacements.py`) is
  not part of the sources; it is modelled from the spec as an abstract
  `Lexicon` record, with one concrete instance for witnesses.
* Dictionaries returned by the Python code become structures; the empty
  `details` dictionary / absent `summary` key of the blank-input detection
  result become `Option.none`.
-/

namespace AIW

/-- Remove leading and trailing whitespace characters, the model of
Python's `str.strip()`. -/
def stripL (cs : List Char) : List Char :=
  ((cs.dropWhile Char.isWhitespace).reverse.dropWhile Char.isWhitespace).reverse

/-- Does the second list start with the first one? -/
def startsW : List Char → List Char → Bool
  | [], _ => true
  | _ :: _, [] => false
  | p :: ps, c :: cs => p == c && startsW ps cs

/-- Substring containment, the model of Python's `pat in s`. -/
def containsL (s pat : List Char) : Bool :=
  if startsW pat s then true
  else
    match s with
    | [] => false
    | _ :: tl => containsL tl pat

/-- Substring containment on `String`. -/
def containsS (s w : String) : Bool :=
  containsL s.toList w.toList

/-- Replace the first occurrence of `pat` by `rep`, the model of Python's
`s.replace(pat, rep, 1)`. -/
def replFirst (s pat rep : List Char) : List Char :=
  if startsW pat s then rep ++ s.drop pat.length
  else
    match s with
    | [] => []
    | c :: tl => c :: replFirst tl pat rep

/-- Split on any of the delimiter characters, dropping the delimiters and
keeping empty pieces, the model of `re.split(r'[d...]', s)` and of
`s.split(d)`. -/
def splitD (ds : List Char) : List Char → List (List Char)
  | [] => [[]]
  | c :: tl =>
    let r := splitD ds tl
    if ds.contains c then [] :: r
    else
      match r with
      | [] => [[c]]
      | h :: t2 => (c :: h) :: t2

/-- Split on any of the delimiter characters keeping each delimiter as its
own one-character piece, the model of `re.split(r'([d...])', s)` with a
capturing group. -/
def splitK (ds : List Char) : List Char → List (List Char)
  | [] => [[]]
  | c :: tl =>
    let r := splitK ds tl
    if ds.contains c then [] :: [c] :: r
    else
      match r with
      | [] => [[c]]
      | h :: t2 => (c :: h) :: t2

/-- Rebuild `piece, delimiter, piece, …` output of `splitK` into
`piece ++ delimiter` units, the model of the humanizer's
`sentences[i] + sentences[i+1]` pairing loop. -/
def pairUp : List (List Char) → List (List Char)
  | [] => []
  | [a] => [a]
  | a :: b :: rest => (a ++ b) :: pairUp rest

/-- Round a rational to the nearest integer, ties to even, the model of
Python's `round` on the exact value. -/
def roundHE (q : ℚ) : ℤ :=
  let f : ℤ := ⌊q⌋
  if q - f < 1 / 2 then f
  else if 1 / 2 < q - f then f + 1
  else if 2 ∣ f then f else f + 1

/-- Round a rational to two decimal places, the model of Python's
`round(x, 2)`. -/
def round2 (q : ℚ) : ℚ :=
  (roundHE (q * 100) : ℚ) / 100

/-- Computable minimum on the rationals (Python's `min(a, b)`). -/
def qmin (a b : ℚ) : ℚ := if a ≤ b then a else b

/-- Computable maximum on the rationals (Python's `max(a, b)`). -/
def qmax (a b : ℚ) : ℚ := if a ≤ b then b else a

/-! ### A small regular-expression engine

Exactly the constructs used by `rules/patterns.py`: literal runs, `.{m,n}`
and `.{m,}` (any character except a newline), small character classes,
literal alternation, and the `^` / `$` anchors (no MULTILINE, so `^`
matches only at the start and `$` at the end or before a final newline).
Groups are only used for extraction in the source, never for matching, so
they are not represented. -/

inductive RItem where
  | lit : List Char → RItem
  | anyRange : Nat → Nat → RItem
  | anyMin : Nat → RItem
  | cls : List Char → RItem
  | altLit : List (List Char) → RItem
  | bol : RItem
  | eol : RItem

/-- Match a sequence of items against `text` starting at position `p`
(existence of a match, which is all `pattern.search` truthiness needs). -/
def mItems (text : List Char) : List RItem → Nat → Bool
  | [], _ => true
  | RItem.lit w :: rest, p =>
    startsW w (text.drop p) && mItems text rest (p + w.length)
  | RItem.cls cs :: rest, p =>
    (match text.drop p with
     | [] => false
     | c :: _ => cs.contains c && mItems text rest (p + 1))
  | RItem.altLit ws :: rest, p =>
    ws.any fun w => startsW w (text.drop p) && mItems text rest (p + w.length)
  | RItem.anyRange m M :: rest, p =>
    (List.range (M + 1 - m)).any fun d =>
      let k := m + d
      decide (p + k ≤ text.length) &&
        ((text.drop p).take k).all (fun c => c != '\n') &&
        mItems text rest (p + k)
  | RItem.anyMin m :: rest, p =>
    (List.range (text.length + 1 - (p + m))).any fun d =>
      let k := m + d
      ((text.drop p).take k).all (fun c => c != '\n') &&
        mItems text rest (p + k)
  | RItem.bol :: rest, p => decide (p = 0) && mItems text rest p
  | RItem.eol :: rest, p =>
    (decide (p = text.length) ||
      (decide (p + 1 = text.length) && (text.getD p ' ' == '\n'))) &&
      mItems text rest p

/-- Model of `pattern.search(text)` truthiness: a match starting at some
position. -/
def rsearch (text : List Char) (items : List RItem) : Bool :=
  (List.range (text.length + 1)).any fun p => mItems text items p

/-! ### The compiled pattern library (`rules/patterns.py`)

The five groups the detector consults (`FIXED_SENTENCE_PATTERNS`,
`PARALLEL_PATTERNS`, `LIST_PATTERNS`, `AI_OPENING_PATTERNS`,
`AI_CLOSING_PATTERNS`), transcribed pattern by pattern; the summary-detail
group is never consulted by the detector or the humanizer. -/

/-- The `FIXED_SENTENCE_PATTERNS` list. -/
def fixedPats : List (List RItem) := [
  [.lit "不仅".toList, .anyRange 2 20, .lit "而且".toList, .anyRange 2 20],
  [.lit "不但".toList, .anyRange 2 20, .lit "而且".toList, .anyRange 2 20],
  [.lit "不只".toList, .anyRange 2 20, .lit "还".toList, .anyRange 2 20],
  [.lit "一方面".toList, .anyRange 5 30, .lit "另一方面".toList, .anyRange 5 30],
  [.lit "一方面".toList, .anyRange 5 30, .lit "另外".toList, .anyRange 5 30],
  [.lit "既".toList, .anyRange 2 15, .lit "又".toList, .anyRange 2 15],
  [.lit "既".toList, .anyRange 2 15, .lit "也".toList, .anyRange 2 15],
  [.lit "只有".toList, .anyRange 3 20, .lit "才能".toList, .anyRange 3 20],
  [.lit "只有".toList, .anyRange 3 20, .lit "才".toList, .anyRange 3 20],
  [.lit "无论".toList, .anyRange 3 20, .lit "都".toList, .anyRange 3 20],
  [.lit "不管".toList, .anyRange 3 20, .lit "都".toList, .anyRange 3 20],
  [.lit "如果".toList, .anyRange 3 25, .lit "就".toList, .anyRange 3 25],
  [.lit "假如".toList, .anyRange 3 25, .lit "就".toList, .anyRange 3 25],
  [.lit "倘若".toList, .anyRange 3 25, .lit "就".toList, .anyRange 3 25],
  [.lit "虽然".toList, .anyRange 3 25, .lit "但是".toList, .anyRange 3 25],
  [.lit "虽然".toList, .anyRange 3 25, .lit "然而".toList, .anyRange 3 25],
  [.lit "尽管".toList, .anyRange 3 25, .lit "但是".toList, .anyRange 3 25],
  [.lit "因为".toList, .anyRange 3 25, .lit "所以".toList, .anyRange 3 25],
  [.lit "由于".toList, .anyRange 3 25, .lit "因此".toList, .anyRange 3 25],
  [.lit "通过".toList, .anyRange 3 20, .lit "实现".toList, .anyRange 3 20],
  [.lit "通过".toList, .anyRange 3 20, .lit "达到".toList, .anyRange 3 20],
  [.lit "借助".toList, .anyRange 3 20, .lit "实现".toList, .anyRange 3 20],
  [.lit "随着".toList, .anyRange 3 20, .lit "的发展".toList],
  [.lit "随着".toList, .anyRange 3 20, .lit "的变化".toList],
  [.lit "随着".toList, .anyRange 3 20, .lit "的提高".toList]]

/-- The `PARALLEL_PATTERNS` list. -/
def parallelPats : List (List RItem) := [
  [.anyRange 2 8, .cls ['，', ','], .anyRange 2 8, .cls ['，', ','], .anyRange 2 8],
  [.lit "要".toList, .anyRange 2 15, .cls ['，', ','], .lit "要".toList,
    .anyRange 2 15, .cls ['，', ','], .lit "要".toList, .anyRange 2 15],
  [.lit "能".toList, .anyRange 2 15, .cls ['，', ','], .lit "能".toList,
    .anyRange 2 15, .cls ['，', ','], .lit "能".toList, .anyRange 2 15],
  [.lit "有".toList, .anyRange 2 15, .cls ['，', ','], .lit "有".toList,
    .anyRange 2 15, .cls ['，', ','], .lit "有".toList, .anyRange 2 15],
  [.lit "不仅".toList, .anyRange 2 15, .cls ['，', ','], .lit "还".toList,
    .anyRange 2 15, .cls ['，', ','], .lit "更".toList, .anyRange 2 15]]

/-- The `LIST_PATTERNS` list. -/
def listPats : List (List RItem) := [
  [.lit "第一".toList, .anyRange 5 30, .lit "第二".toList, .anyRange 5 30],
  [.lit "第一".toList, .anyRange 5 30, .lit "第二".toList, .anyRange 5 30,
    .lit "第三".toList, .anyRange 5 30],
  [.cls ['1', '１', '一'], .anyRange 5 30, .cls ['2', '２', '二'], .anyRange 5 30],
  [.cls ['1', '１', '一'], .anyRange 5 30, .cls ['2', '２', '二'], .anyRange 5 30,
    .cls ['3', '３', '三'], .anyRange 5 30],
  [.lit "首先".toList, .anyRange 5 30, .lit "其次".toList, .anyRange 5 30],
  [.lit "首先".toList, .anyRange 5 30, .lit "其次".toList, .anyRange 5 30,
    .lit "最后".toList, .anyRange 5 30]]

/-- The `AI_OPENING_PATTERNS` list. -/
def openingPats : List (List RItem) := [
  [.bol, .lit "在当今社会".toList],
  [.bol, .lit "在现代社会".toList],
  [.bol, .lit "随着".toList, .anyRange 2 10, .lit "的发展".toList],
  [.bol, .lit "近年来".toList],
  [.bol, .lit "众所周知".toList],
  [.bol, .lit "毋庸置疑".toList],
  [.bol, .lit "显而易见".toList]]

/-- The `AI_CLOSING_PATTERNS` list. -/
def closingPats : List (List RItem) := [
  [.altLit ["总之".toList, "综上所述".toList, "总而言之".toList], .anyMin 10,
    .cls ['。', '！'], .eol],
  [.lit "具有重要意义".toList, .cls ['。', '！'], .eol],
  [.lit "发挥重要作用".toList, .cls ['。', '！'], .eol],
  [.lit "产生深远影响".toList, .cls ['。', '！'], .eol]]

/-- Model of `len(check_pattern(text, ty))` for one pattern group: the
number of patterns in the group with a search hit (`check_pattern` appends
one entry per matching pattern). -/
def patCount (group : List (List RItem)) (text : List Char) : Nat :=
  (group.filter fun p => rsearch text p).length

/-- Model of `any(check_pattern(text, ty))` for one pattern group. -/
def patAny (group : List (List RItem)) (text : List Char) : Bool :=
  group.any fun p => rsearch text p

/-! ### The lexicon -/

/-- Modelled from the spec: the lexicon module (`rules/ai_keywords.py` and
`rules/replacements.py`) is not among the sources; per spec §2 it is pure
static data — AI-associated high-frequency words, connectors, formal
words, qualifiers, fixed phrases, emotion-word groups, first-person
markers, uncertainty and colloquial expression lists, and a
word-to-candidate-replacements mapping (here an association list, so that
dictionary membership and empty replacement sets stay distinguishable). -/
structure Lexicon where
  highFreq : List String
  connectors : List String
  formalWords : List String
  qualifiers : List String
  fixedPhrases : List String
  emotionGroups : List (List String)
  firstPerson : List String
  uncertainty : List String
  colloquial : List String
  replacements : List (String × List String)

/-- Lookup in the replacement mapping; `none` models a word that is not a
key of `WORD_REPLACEMENTS`. -/
def lookupRepl (lex : Lexicon) (w : String) : Option (List String) :=
  (lex.replacements.find? fun e => e.1 == w).map Prod.snd

/-! ### The detector (`detector.py`) -/

/-- Result of `_analyze_lexical`: the score plus the flattened `details`
dictionary (ratio keys are named `..Pct` here). -/
structure LexResult where
  score : ℚ
  high_freq_words : Nat
  connectors : Nat
  formal_words : Nat
  qualifiers : Nat
  fixed_phrases : Nat
  highFreqPct : ℚ
  connectorPct : ℚ
  formalPct : ℚ
deriving DecidableEq

/-- Result of `_analyze_syntactic` with its flattened `details`. -/
structure SynResult where
  score : ℚ
  sentence_count : Nat
  avg_sentence_length : ℚ
  fixed_matches : Nat
  parallel_matches : Nat
  list_matches : Nat
  too_long_sentences : Nat
  too_short_sentences : Nat
deriving DecidableEq

/-- Result of `_analyze_structural` with its flattened `details`. -/
structure StructResult where
  score : ℚ
  paragraph_count : Nat
  has_opening_pattern : Bool
  has_closing_pattern : Bool
  list_structure_count : Nat
  avg_paragraph_length : ℚ
deriving DecidableEq

/-- Result of `_analyze_semantic` with its flattened `details` (ratio keys
are named `..Pct` here). -/
structure SemResult where
  score : ℚ
  qualifier_count : Nat
  emotion_count : Nat
  first_person_count : Nat
  emotionPct : ℚ
  firstPersonPct : ℚ
deriving DecidableEq

/-- Model of `_analyze_lexical(text)`. -/
def analyzeLexical (lex : Lexicon) (seg : String → List String) (t : String) :
    LexResult :=
  let words := seg t
  let total : Nat := words.length
  if total = 0 then
    { score := 0, high_freq_words := 0, connectors := 0, formal_words := 0,
      qualifiers := 0, fixed_phrases := 0, highFreqPct := 0, connectorPct := 0,
      formalPct := 0 }
  else
    let hf := (words.filter fun w => lex.highFreq.contains w).length
    let cn := (words.filter fun w => lex.connectors.contains w).length
    let fm := (words.filter fun w => lex.formalWords.contains w).length
    let ql := (words.filter fun w => lex.qualifiers.contains w).length
    let fp := (lex.fixedPhrases.filter fun ph => containsS t ph).length
    let hfPct : ℚ := (hf : ℚ) / (total : ℚ) * 100
    let cnPct : ℚ := (cn : ℚ) / (total : ℚ) * 100
    let fmPct : ℚ := (fm : ℚ) / (total : ℚ) * 100
    let sc : ℚ :=
      qmin 100 (hfPct * 15 + cnPct * 15 + fmPct * 10 + (ql : ℚ) * 2 + (fp : ℚ) * 5)
    { score := round2 sc, high_freq_words := hf, connectors := cn,
      formal_words := fm, qualifiers := ql, fixed_phrases := fp,
      highFreqPct := round2 hfPct, connectorPct := round2 cnPct,
      formalPct := round2 fmPct }

/-- Sentence list of `_analyze_syntactic`: split on `。！？` and newline,
strip, drop empties. -/
def sentencesOf (t : String) : List (List Char) :=
  ((splitD ['。', '！', '？', '\n'] t.toList).map stripL).filter fun s => s ≠ []

/-- Model of `_analyze_syntactic(text)`. -/
def analyzeSyntactic (t : String) : SynResult :=
  let sentences := sentencesOf t
  if sentences.length = 0 then
    { score := 0, sentence_count := 0, avg_sentence_length := 0,
      fixed_matches := 0, parallel_matches := 0, list_matches := 0,
      too_long_sentences := 0, too_short_sentences := 0 }
  else
    let lens := sentences.map List.length
    let avg : ℚ := ((lens.sum : ℚ)) / (sentences.length : ℚ)
    let tooLong := (lens.filter fun l => 40 < l).length
    let tooShort := (lens.filter fun l => l < 5).length
    let fixedC := (sentences.map fun s => patCount fixedPats s).sum
    let parC := (sentences.map fun s => patCount parallelPats s).sum
    let listC := patCount listPats t.toList
    let sc : ℚ :=
      qmin 100 ((avg / 50) * 20 + (fixedC : ℚ) * 8 + (parC : ℚ) * 10 +
        (listC : ℚ) * 12 + (tooLong : ℚ) * 5)
    { score := round2 sc, sentence_count := sentences.length,
      avg_sentence_length := round2 avg, fixed_matches := fixedC,
      parallel_matches := parC, list_matches := listC,
      too_long_sentences := tooLong, too_short_sentences := tooShort }

/-- The literal list-indicator words of `_analyze_structural`. -/
def listIndicators : List String :=
  ["第一", "第二", "第三", "首先", "其次", "最后"]

/-- Model of `_analyze_structural(text)`. -/
def analyzeStructural (t : String) : StructResult :=
  let paragraphs := ((splitD ['\n'] t.toList).map stripL).filter fun p => p ≠ []
  let hasOpen := patAny openingPats t.toList
  let hasClose := patAny closingPats t.toList
  let listC := (listIndicators.filter fun w => containsS t w).length
  let avgPara : ℚ :=
    if paragraphs.length ≠ 0 then
      ((paragraphs.map List.length).sum : ℚ) / (paragraphs.length : ℚ)
    else (t.length : ℚ)
  let sc : ℚ :=
    qmin 100 ((if hasOpen then (30 : ℚ) else 0) + (if hasClose then (30 : ℚ) else 0) +
      (listC : ℚ) * 8 + (if 100 < avgPara then (20 : ℚ) else 0))
  { score := round2 sc, paragraph_count := paragraphs.length,
    has_opening_pattern := hasOpen, has_closing_pattern := hasClose,
    list_structure_count := listC, avg_paragraph_length := round2 avgPara }

/-- Model of `_analyze_semantic(text)`. -/
def analyzeSemantic (lex : Lexicon) (seg : String → List String) (t : String) :
    SemResult :=
  let words := seg t
  let total : Nat := words.length
  if total = 0 then
    { score := 0, qualifier_count := 0, emotion_count := 0,
      first_person_count := 0, emotionPct := 0, firstPersonPct := 0 }
  else
    let ql := (words.filter fun w => lex.qualifiers.contains w).length
    let em := (lex.emotionGroups.map fun g =>
      (words.filter fun w => g.contains w).length).sum
    let fp := (words.filter fun w => lex.firstPerson.contains w).length
    let emPct : ℚ := (em : ℚ) / (total : ℚ) * 100
    let fpPct : ℚ := (fp : ℚ) / (total : ℚ) * 100
    let sc : ℚ :=
      qmin 100 ((ql : ℚ) * 5 + qmax 0 (50 - emPct * 10) + qmax 0 (30 - fpPct * 10))
    { score := round2 sc, qualifier_count := ql, emotion_count := em,
      first_person_count := fp, emotionPct := round2 emPct,
      firstPersonPct := round2 fpPct }

/-- The detection summary; `main_issue` models the formatted
main-issue message by its two ingredients: the dominant dimension's name
and its score. -/
structure Summary where
  level : String
  conclusion : String
  main_issue : String × ℚ
deriving DecidableEq

/-- Model of Python's `max(items, key=value)` over the four dimension
entries: iterate and replace the current best only on a strictly greater
value, so the first maximal entry wins. -/
def pyMaxSnd (first : String × ℚ) (rest : List (String × ℚ)) : String × ℚ :=
  rest.foldl (fun best x => if best.2 < x.2 then x else best) first

/-- Model of `_generate_summary(total_score, lexical, syntactic,
structural, semantic)` (only the scores of the four dimension results are
read). -/
def generateSummary (total lexS synS strS semS : ℚ) : Summary :=
  let lv :=
    if 80 ≤ total then ("极高", "文本具有非常明显的AI生成特征")
    else if 60 ≤ total then ("较高", "文本很可能由AI生成")
    else if 40 ≤ total then ("中等", "文本具有一些AI特征，但不明显")
    else if 20 ≤ total then ("较低", "文本AI特征较少，较为自然")
    else ("很低", "文本非常自然，几乎无AI特征")
  { level := lv.1, conclusion := lv.2,
    main_issue :=
      pyMaxSnd ("词汇", lexS) [("句式", synS), ("结构", strS), ("语义", semS)] }

/-- The per-dimension block of a detection result's `details` dictionary. -/
structure DetectDetails where
  lexical : LexResult
  syntactic : SynResult
  structural : StructResult
  semantic : SemResult
deriving DecidableEq

/-- Model of the dictionary returned by `detect`; the blank-input branch
returns an empty `details` dictionary and no `summary` key, modelled as
`none`. -/
structure DetectResult where
  is_ai : Bool
  confidence : ℚ
  score : ℚ
  details : Option DetectDetails
  text_length : Nat
  summary : Option Summary
deriving DecidableEq

/-- Model of the blank-input test `not text or len(text.strip()) == 0`
(an empty string is falsy, so the test is equivalent to the stripped text
being empty). -/
def blankInput (t : String) : Bool :=
  stripL t.toList == []

/-- Model of `AIDetector.detect(text)`. -/
def detect (lex : Lexicon) (seg : String → List String) (t : String) :
    DetectResult :=
  if blankInput t then
    { is_ai := false, confidence := 0, score := 0, details := none,
      text_length := 0, summary := none }
  else
    let L := analyzeLexical lex seg t
    let S := analyzeSyntactic t
    let St := analyzeStructural t
    let Se := analyzeSemantic lex seg t
    let total : ℚ := L.score * 0.3 + S.score * 0.25 + St.score * 0.25 + Se.score * 0.2
    { is_ai := decide (60 ≤ total), confidence := total / 100,
      score := round2 total,
      details := some { lexical := L, syntactic := S, structural := St, semantic := Se },
      text_length := t.length,
      summary := some (generateSummary total L.score S.score St.score Se.score) }

/-- Model of `AIDetector.generate_report(detection_result)`: the report
reads `result['summary']` and the per-dimension `result['details']`
entries unconditionally, so a missing key is a `KeyError`; number
formatting is abbreviated to `toString`. -/
def generateReport (r : DetectResult) : Except String String :=
  match r.summary with
  | none => Except.error "KeyError: summary"
  | some su =>
    match r.details with
    | none => Except.error "KeyError: lexical"
    | some d =>
      Except.ok (String.intercalate "\n"
        ["AI文本检测报告",
         "检测结论: " ++ su.conclusion,
         "AI特征等级: " ++ su.level,
         "综合得分: " ++ toString r.score ++ "/100",
         "置信度: " ++ toString r.confidence,
         "词汇层面得分: " ++ toString d.lexical.score,
         "句式层面得分: " ++ toString d.syntactic.score,
         "结构层面得分: " ++ toString d.structural.score,
         "语义层面得分: " ++ toString d.semantic.score,
         "主要问题: " ++ su.main_issue.1 ++ toString su.main_issue.2])

/-! ### The humanizer (`humanizer.py`) -/

/-- Modelled from the spec: the randomness source is an external
collaborator providing `uniform`, `choice` and `sample`; it is embedded as
an indexed entropy stream, one tick per primitive draw: `pick n` drives
the n-th index selection (`choice` and each step of `sample`), `unif n`
the n-th `random.random()` comparison. -/
structure Rng where
  pick : Nat → Nat
  unif : Nat → ℚ

/-- Model of `random.choice(l)` at tick `k` (call sites guard `l ≠ []`). -/
def choiceD (r : Rng) (k : Nat) (l : List String) : String :=
  l.getD (r.pick k % l.length) ""

/-- Model of `random.sample(l, j)` at tick `k`: `j` distinct positions
drawn one tick apiece, returned in draw order together with the next
tick. -/
def sampleL (r : Rng) : Nat → Nat → List Nat → List Nat × Nat
  | k, 0, _ => ([], k)
  | k, Nat.succ j, l =>
    if l.isEmpty then ([], k)
    else
      let i := r.pick k % l.length
      let rest := sampleL r (k + 1) j (l.eraseIdx i)
      (l.getD i 0 :: rest.1, rest.2)

/-- One entry of the humanizer's change log; each constructor models one
of the formatted log-line templates of `humanizer.py`. -/
inductive Change where
  | wordRepl (old new : String)
  | replWord (old new : String)
  | breakFirstNext
  | simplify (orig new : String)
  | splitLong
  | addFirstPerson (w : String)
  | addEmotion (w : String)
  | soften (old new : String)
  | addColloquial (w : String)
deriving DecidableEq

/-- Working state of one humanize pass: current text, the pass's change
log, next entropy tick. -/
structure HS where
  t : List Char
  chs : List Change
  k : Nat
deriving DecidableEq

/-- One word of the `_light_humanize` loops: replace the first occurrence
when the word occurs and has a non-empty replacement set. -/
def lightStep (lex : Lexicon) (r : Rng) (s : HS) (w : String) : HS :=
  if containsL s.t w.toList then
    match lookupRepl lex w with
    | some rs =>
      if rs ≠ [] then
        let nw := choiceD r s.k rs
        { t := replFirst s.t w.toList nw.toList,
          chs := s.chs ++ [Change.wordRepl w nw], k := s.k + 1 }
      else s
    | none => s
  else s

/-- Model of `_light_humanize(text)`: the first 20 high-frequency words,
then the first 10 formal words. -/
def lightHumanize (lex : Lexicon) (r : Rng) (k : Nat) (t : List Char) : HS :=
  let s1 := (lex.highFreq.take 20).foldl (lightStep lex r) ⟨t, [], k⟩
  (lex.formalWords.take 10).foldl (lightStep lex r) s1

/-- One token of the `_replace_words` loop: a word with a replacement
entry draws against `prob`; on success a replacement is chosen (one tick)
and the first remaining occurrence, if any, is replaced. -/
def replaceWordsStep (lex : Lexicon) (r : Rng) (prob : ℚ) (s : HS)
    (w : String) : HS :=
  match lookupRepl lex w with
  | none => s
  | some rs =>
    if r.unif s.k < prob then
      if rs ≠ [] then
        let nw := choiceD r (s.k + 1) rs
        if containsL s.t w.toList then
          { t := replFirst s.t w.toList nw.toList,
            chs := s.chs ++ [Change.replWord w nw], k := s.k + 2 }
        else { s with k := s.k + 2 }
      else { s with k := s.k + 1 }
    else { s with k := s.k + 1 }

/-- Model of `_replace_words(text, prob)` (`ratio` in the source): the
tokens of the current text in segmentation order. -/
def replaceWords (lex : Lexicon) (seg : String → List String) (r : Rng)
    (prob : ℚ) (k : Nat) (t : List Char) : HS :=
  (seg (String.mk t)).foldl (replaceWordsStep lex r prob) ⟨t, [], k⟩

/-- The three paraphrase templates of the `不仅…而且…` simplification. -/
def bujinTemplates (x y : String) : List String :=
  [x ++ "，还" ++ y, x ++ "，也" ++ y, "既" ++ x ++ "又" ++ y]

/-- Greedy match of the group `(.{2,20})` with nothing required after it:
the longest run of at most 20 non-newline characters, if at least 2. -/
def greedyY (cs : List Char) : Option (List Char) :=
  let avail := (cs.takeWhile fun c => c != '\n').take 20
  if 2 ≤ avail.length then some avail else none

/-- Match of `不仅(.{2,20})而且(.{2,20})` at the head of `cs` with
Python's greedy semantics: the longest admissible first group (longer
candidates are tried first and backtracked), then the longest second
group. -/
def matchBujinAt (cs : List Char) : Option (List Char × List Char) :=
  if startsW "不仅".toList cs then
    let rest := cs.drop 2
    ((List.range 19).map fun d => 20 - d).findSome? fun k =>
      if k ≤ rest.length ∧ ((rest.take k).all fun c => c != '\n') ∧
          startsW "而且".toList (rest.drop k) then
        match greedyY (rest.drop (k + 2)) with
        | some y => some (rest.take k, y)
        | none => none
      else none
  else none

/-- Leftmost non-overlapping matches of `不仅(.{2,20})而且(.{2,20})`,
the model of `re.findall(pattern, text)` in `_adjust_syntax`; the fuel
bounds the scan by the text length. -/
def findallGreedyAux : Nat → List Char → List (List Char × List Char)
  | 0, _ => []
  | _, [] => []
  | Nat.succ fuel, c :: tl =>
    match matchBujinAt (c :: tl) with
    | some (x, y) =>
      (x, y) :: findallGreedyAux fuel ((c :: tl).drop (2 + x.length + 2 + y.length))
    | none => findallGreedyAux fuel tl

/-- Entry point of the greedy `findall` scan. -/
def findallGreedy (cs : List Char) : List (List Char × List Char) :=
  findallGreedyAux (cs.length + 1) cs

/-- Step (1) of `_adjust_syntax`: if both `首先` and `其次` occur, replace
the first occurrence of each with a colloquial synonym. -/
def adjustStep1 (t : List Char) : List Char × List Change :=
  if containsL t "首先".toList ∧ containsL t "其次".toList then
    (replFirst (replFirst t "首先".toList "先说".toList) "其次".toList "再说".toList,
      [Change.breakFirstNext])
  else (t, [])

/-- Step (2) of `_adjust_syntax`: the first two `不仅…而且…` matches
(computed once on the incoming text) are each replaced by a randomly
chosen paraphrase template. -/
def adjustStep2 (r : Rng) (k : Nat) (t : List Char) : HS :=
  ((findallGreedy t).take 2).foldl
    (fun s m =>
      let orig := "不仅".toList ++ m.1 ++ "而且".toList ++ m.2
      let simplified := choiceD r s.k (bujinTemplates (String.mk m.1) (String.mk m.2))
      { t := replFirst s.t orig simplified.toList,
        chs := s.chs ++ [Change.simplify (String.mk orig) simplified],
        k := s.k + 1 })
    ⟨t, [], k⟩

/-- Step (3) of `_adjust_syntax`: re-split into sentence units keeping the
terminal marks; any unit longer than 50 characters containing a
clause comma is split once at the middle comma boundary. -/
def adjustStep3 (t : List Char) : List Char × List Change :=
  let sentences := pairUp (splitK ['。', '！', '？'] t)
  let acc := sentences.foldl
    (fun (acc : List (List Char) × List Change) sent =>
      if 50 < sent.length ∧ containsL sent ['，'] then
        let parts := splitD ['，'] sent
        if 2 ≤ parts.length then
          let mid := parts.length / 2
          let firstHalf := List.intercalate ['，'] (parts.take mid) ++ ['。']
          let secondHalf := List.intercalate ['，'] (parts.drop mid)
          (acc.1 ++ [firstHalf, secondHalf], acc.2 ++ [Change.splitLong])
        else (acc.1 ++ [sent], acc.2)
      else (acc.1 ++ [sent], acc.2))
    ([], [])
  (acc.1.flatten, acc.2)

/-- Model of `_adjust_syntax(text)`. -/
def adjustSyntax (r : Rng) (k : Nat) (t : List Char) : HS :=
  let p1 := adjustStep1 t
  let s2 := adjustStep2 r k p1.1
  let p3 := adjustStep3 s2.t
  ⟨p3.1, p1.2 ++ s2.chs ++ p3.2, s2.k⟩

/-- The first-person lead-ins of `_add_personal_expressions`. -/
def firstPersonLeads : List String := ["我觉得", "我认为", "个人觉得", "依我看"]

/-- Even, non-blank sentence-unit indices, the
`[i for i in range(0, len(sentences), 2) if sentences[i].strip()]`
selector shared by the insertion passes. -/
def speakableIdxs (sentences : List (List Char)) : List Nat :=
  (List.range sentences.length).filter fun i =>
    i % 2 = 0 ∧ stripL (sentences.getD i []) ≠ []

/-- Model of `_add_personal_expressions(text)`. -/
def addPersonal (r : Rng) (k : Nat) (t : List Char) : HS :=
  let sentences := splitK ['。', '！', '？', '\n'] t
  let idxs := speakableIdxs sentences
  if idxs ≠ [] then
    let sel := sampleL r k (min 2 idxs.length) idxs
    let res := sel.1.foldl
      (fun (acc : List (List Char) × List Change × Nat) idx =>
        let sentence := acc.1.getD idx []
        if sentence ≠ [] ∧ 10 < sentence.length then
          let fpw := choiceD r acc.2.2 firstPersonLeads
          (acc.1.set idx (fpw.toList ++ sentence),
            acc.2.1 ++ [Change.addFirstPerson fpw], acc.2.2 + 1)
        else acc)
      (sentences, [], sel.2)
    ⟨res.1.flatten, res.2.1, res.2.2⟩
  else ⟨sentences.flatten, [], k⟩

/-- The intensifiers of `_add_emotions`. -/
def emotionLeads : List String := ["真的", "确实", "挺"]

/-- Model of `_add_emotions(text)`: requires more than two speakable
units; each sampled unit terminated by a plain full stop gets, with
probability one half, an intensifier prepended. -/
def addEmotions (r : Rng) (k : Nat) (t : List Char) : HS :=
  let sentences := splitK ['。', '！', '？'] t
  let idxs := speakableIdxs sentences
  if idxs ≠ [] ∧ 2 < idxs.length then
    let sel := sampleL r k (min 2 idxs.length) idxs
    let res := sel.1.foldl
      (fun (acc : List (List Char) × List Change × Nat) idx =>
        if idx + 1 < acc.1.length ∧ acc.1.getD (idx + 1) [] = ['。'] then
          if r.unif acc.2.2 < 1 / 2 then
            let w := choiceD r (acc.2.2 + 1) emotionLeads
            (acc.1.set idx (w.toList ++ acc.1.getD idx []),
              acc.2.1 ++ [Change.addEmotion w], acc.2.2 + 2)
          else (acc.1, acc.2.1, acc.2.2 + 1)
        else acc)
      (sentences, [], sel.2)
    ⟨res.1.flatten, res.2.1, res.2.2⟩
  else ⟨sentences.flatten, [], k⟩

/-- The absolute-certainty words of `_add_uncertainty`. -/
def absoluteWords : List String := ["一定", "必须", "肯定", "绝对"]

/-- Model of `_add_uncertainty(text)`: each absolute word present has its
first occurrence replaced by one of the first five uncertainty
expressions. -/
def addUncertainty (lex : Lexicon) (r : Rng) (k : Nat) (t : List Char) : HS :=
  absoluteWords.foldl
    (fun s w =>
      if containsL s.t w.toList then
        let unc := choiceD r s.k (lex.uncertainty.take 5)
        { t := replFirst s.t w.toList unc.toList,
          chs := s.chs ++ [Change.soften w unc], k := s.k + 1 }
      else s)
    ⟨t, [], k⟩

/-- Model of `_add_colloquial_expressions(text, count)`: up to `count`
sampled units ending in a full stop or exclamation mark and longer than
five characters get a sentence-final particle appended. -/
def addColloquialPass (lex : Lexicon) (r : Rng) (count : Nat) (k : Nat)
    (t : List Char) : HS :=
  let sentences := splitK ['。', '！', '？'] t
  let idxs := speakableIdxs sentences
  if idxs ≠ [] then
    let sel := sampleL r k (min count idxs.length) idxs
    let res := sel.1.foldl
      (fun (acc : List (List Char) × List Change × Nat) idx =>
        let sentence := acc.1.getD idx []
        if sentence ≠ [] ∧ 5 < sentence.length then
          if idx + 1 < acc.1.length ∧
              (acc.1.getD (idx + 1) [] = ['。'] ∨ acc.1.getD (idx + 1) [] = ['！']) then
            let marker := choiceD r acc.2.2 (lex.colloquial.take 5)
            (acc.1.set idx (sentence ++ marker.toList),
              acc.2.1 ++ [Change.addColloquial marker], acc.2.2 + 1)
          else acc
        else acc)
      (sentences, [], sel.2)
    ⟨res.1.flatten, res.2.1, res.2.2⟩
  else ⟨sentences.flatten, [], k⟩

/-- Model of `_medium_humanize(text)`. -/
def mediumHumanize (lex : Lexicon) (seg : String → List String) (r : Rng)
    (k : Nat) (t : List Char) : HS :=
  let s1 := replaceWords lex seg r 0.6 k t
  let s2 := adjustSyntax r s1.k s1.t
  let s3 := addColloquialPass lex r 2 s2.k s2.t
  ⟨s3.t, s1.chs ++ s2.chs ++ s3.chs, s3.k⟩

/-- Model of `_heavy_humanize(text)`. -/
def heavyHumanize (lex : Lexicon) (seg : String → List String) (r : Rng)
    (k : Nat) (t : List Char) : HS :=
  let s1 := replaceWords lex seg r 0.9 k t
  let s2 := adjustSyntax r s1.k s1.t
  let s3 := addPersonal r s2.k s2.t
  let s4 := addEmotions r s3.k s3.t
  let s5 := addUncertainty lex r s4.k s4.t
  let s6 := addColloquialPass lex r 5 s5.k s5.t
  ⟨s6.t, s1.chs ++ s2.chs ++ s3.chs ++ s4.chs ++ s5.chs ++ s6.chs, s6.k⟩

/-- Model of the dictionary returned by `AIHumanizer.humanize`. -/
structure HumanizeResult where
  text : String
  original_length : Nat
  modified_length : Nat
  changes : List Change
  change_count : Nat
  intensity : String
deriving DecidableEq

/-- Model of `AIHumanizer.humanize(text, intensity)`: blank input returns
the identity result before any validation; an unrecognized intensity
raises `ValueError`, modelled as `Except.error`. -/
def humanize (lex : Lexicon) (seg : String → List String) (r : Rng)
    (t : String) (intensity : String) : Except String HumanizeResult :=
  if blankInput t then
    Except.ok
      { text := t, original_length := 0, modified_length := 0,
        changes := [], change_count := 0, intensity := intensity }
  else
    let run : Option HS :=
      if intensity = "light" then some (lightHumanize lex r 0 t.toList)
      else if intensity = "medium" then some (mediumHumanize lex seg r 0 t.toList)
      else if intensity = "heavy" then some (heavyHumanize lex seg r 0 t.toList)
      else none
    match run with
    | some s =>
      Except.ok
        { text := String.mk s.t, original_length := t.length,
          modified_length := s.t.length, changes := s.chs,
          change_count := s.chs.length, intensity := intensity }
    | none => Except.error ("Invalid intensity: " ++ intensity)

/-! ### Concrete collaborator instances for witnesses -/

/-- Modelled from the spec: one concrete lexicon instance (the data of the
missing `rules/ai_keywords.py` / `rules/replacements.py` module),
populated from the AI-marker vocabulary the spec's scenarios name
(`首先`, `其次`, `最后`, `显而易见`, `综上所述`, …); used only to
instantiate witnesses and counterexamples. -/
def specLexicon : Lexicon :=
  { highFreq := ["首先", "其次", "最后", "显而易见"],
    connectors := ["因此", "然而", "此外"],
    formalWords := ["发挥", "显著", "至关重要"],
    qualifiers := ["或许", "一般来说"],
    fixedPhrases := ["综上所述", "具有重要意义"],
    emotionGroups := [["开心", "快乐"], ["伤心"]],
    firstPerson := ["我", "我们"],
    uncertainty := ["可能", "也许", "大概", "或许", "似乎"],
    colloquial := ["啊", "呢", "吧", "嘛", "哦"],
    replacements := [("首先", ["一开始"]), ("其次", ["然后"]),
      ("至关重要", ["很重要"])] }

/-- Modelled from the spec: a concrete tokenizer instance producing one
token per character; the tokenizer is an external collaborator
(`segment(text) -> ordered sequence of tokens`) whose algorithm is out of
scope, so witnesses may fix any instance. -/
def segChars (s : String) : List String :=
  s.toList.map fun c => String.mk [c]

/-- Chunk a character list into two-character pieces. -/
def chunkPairs : List Char → List String
  | [] => []
  | [c] => [String.mk [c]]
  | a :: b :: rest => String.mk [a, b] :: chunkPairs rest

/-- Modelled from the spec: a concrete tokenizer instance producing
two-character tokens (the dominant Chinese word length), fixed by some
witnesses. -/
def segPairs (s : String) : List String :=
  chunkPairs s.toList

/-- A concrete entropy stream (all draws zero), fixing the external
randomness collaborator in witnesses. -/
def rng0 : Rng :=
  { pick := fun _ => 0, unif := fun _ => 0 }

/-- The weighted combination of the four dimension scores computed by
`detect` (the fixed 0.30/0.25/0.25/0.20 design weights). -/
def totalScore (lex : Lexicon) (seg : String → List String) (t : String) : ℚ :=
  (analyzeLexical lex seg t).score * 0.3 + (analyzeSyntactic t).score * 0.25 +
    (analyzeStructural t).score * 0.25 + (analyzeSemantic lex seg t).score * 0.2

/-! ### Spec-side reference definitions -/

/-- The spec's description of the summary tie-break, stated in its own
words: the dimension reported is the first of
lexical, syntactic, structural, semantic whose score is greater than or
equal to all later ones (the stable argmax). -/
def stableArgmaxSpec (l s st se : ℚ) : String × ℚ :=
  if s ≤ l ∧ st ≤ l ∧ se ≤ l then ("词汇", l)
  else if st ≤ s ∧ se ≤ s then ("句式", s)
  else if se ≤ st then ("结构", st)
  else ("语义", se)

/-- Non-greedy match of the group `(.{2,20})` with nothing after it:
exactly two non-newline characters (the spec's reading of the
simplification pattern). -/
def yNonGreedy (cs : List Char) : Option (List Char) :=
  let a := cs.take 2
  if a.length = 2 ∧ (a.all fun c => c != '\n') then some a else none

/-- The spec's reading of the `不仅…而且…` match, stated in its own
words: X and Y matched non-greedily (shortest admissible X first, then
shortest Y), each bounded to 2–20 characters. -/
def matchBujinAtNonGreedy (cs : List Char) : Option (List Char × List Char) :=
  if startsW "不仅".toList cs then
    let rest := cs.drop 2
    ((List.range 19).map fun d => 2 + d).findSome? fun k =>
      if k ≤ rest.length ∧ ((rest.take k).all fun c => c != '\n') ∧
          startsW "而且".toList (rest.drop k) then
        match yNonGreedy (rest.drop (k + 2)) with
        | some y => some (rest.take k, y)
        | none => none
      else none
  else none

/-- Scan for the spec's non-greedy reading of the simplification pattern,
mirroring `findallGreedyAux`. -/
def findallNonGreedyAux : Nat → List Char → List (List Char × List Char)
  | 0, _ => []
  | _, [] => []
  | Nat.succ fuel, c :: tl =>
    match matchBujinAtNonGreedy (c :: tl) with
    | some (x, y) =>
      (x, y) :: findallNonGreedyAux fuel ((c :: tl).drop (2 + x.length + 2 + y.length))
    | none => findallNonGreedyAux fuel tl

/-- Entry point of the non-greedy scan (the spec's reading). -/
def findallNonGreedy (cs : List Char) : List (List Char × List Char) :=
  findallNonGreedyAux (cs.length + 1) cs

/-- The simplification pass as the spec words it: identical to
`adjustStep2` except that the constructs are matched non-greedily. -/
def adjustStep2NonGreedy (r : Rng) (k : Nat) (t : List Char) : HS :=
  ((findallNonGreedy t).take 2).foldl
    (fun s m =>
      let orig := "不仅".toList ++ m.1 ++ "而且".toList ++ m.2
      let simplified := choiceD r s.k (bujinTemplates (String.mk m.1) (String.mk m.2))
      { t := replFirst s.t orig simplified.toList,
        chs := s.chs ++ [Change.simplify (String.mk orig) simplified],
        k := s.k + 1 })
    ⟨t, [], k⟩

/-- The change entry recorded for the `i`-th processed `不仅…而且…`
match when the pass starts at tick `k0`. -/
def bujinChange (k0 : Nat) (r : Rng) (i : Nat) (m : List Char × List Char) : Change :=
  Change.simplify (String.mk ("不仅".toList ++ m.1 ++ "而且".toList ++ m.2))
    (choiceD r (k0 + i) (bujinTemplates (String.mk m.1) (String.mk m.2)))

/-- Does the word have a non-empty replacement set? -/
def hasRepl (lex : Lexicon) (w : String) : Bool :=
  match lookupRepl lex w with
  | some rs => !rs.isEmpty
  | none => false

/-- A 34-character text whose `segPairs` segmentation yields 17 tokens of
which exactly one (`首先`) is a high-frequency word of `specLexicon`, so
the raw lexical formula gives 1500/17, a value with no finite two-decimal
representation. -/
def t17 : String :=
  "首先天空海洋森林草原山脉河流湖泊岛屿沙漠平原城市乡村道路桥梁房屋花园"

/-! ### Bounds on rounding and scores -/

theorem roundHE_ge_floor (q : ℚ) : ⌊q⌋ ≤ roundHE q := by
  unfold roundHE
  dsimp only
  split_ifs <;> omega

theorem roundHE_le_ceil (q : ℚ) : roundHE q ≤ ⌈q⌉ := by
  have hfl : (⌊q⌋ : ℚ) ≤ q := Int.floor_le q
  have hlt : ∀ h : (⌊q⌋ : ℚ) < q, ⌊q⌋ + 1 ≤ ⌈q⌉ := fun h => Int.lt_ceil.mpr h
  unfold roundHE
  dsimp only
  split_ifs with h1 h2 h3
  · exact Int.floor_le_ceil q
  · exact hlt (by linarith)
  · exact Int.floor_le_ceil q
  · exact hlt (by linarith)

theorem round2_nonneg (q : ℚ) (h : 0 ≤ q) : 0 ≤ round2 q := by
  unfold round2
  have h1 : (0 : ℤ) ≤ ⌊q * 100⌋ := Int.floor_nonneg.mpr (by positivity)
  have h2 : (0 : ℤ) ≤ roundHE (q * 100) := le_trans h1 (roundHE_ge_floor _)
  have h3 : (0 : ℚ) ≤ (roundHE (q * 100) : ℚ) := Int.cast_nonneg.mpr h2
  positivity

theorem round2_le_100 (q : ℚ) (h : q ≤ 100) : round2 q ≤ 100 := by
  unfold round2
  have h1 : ⌈q * 100⌉ ≤ 10000 := Int.ceil_le.mpr (by push_cast; linarith)
  have h2 : roundHE (q * 100) ≤ 10000 := le_trans (roundHE_le_ceil _) h1
  have h3 : (roundHE (q * 100) : ℚ) ≤ 10000 := by exact_mod_cast h2
  linarith

theorem qmin_le_left (a b : ℚ) : qmin a b ≤ a := by
  unfold qmin
  split_ifs with h
  · linarith
  · linarith

theorem qmin_nonneg (a b : ℚ) (ha : 0 ≤ a) (hb : 0 ≤ b) : 0 ≤ qmin a b := by
  unfold qmin
  split_ifs <;> assumption

theorem qmax_le_left (a b : ℚ) (h : b ≤ a) : qmax a b ≤ a := by
  unfold qmax
  split_ifs <;> linarith

theorem le_qmax_left (a b : ℚ) : a ≤ qmax a b := by
  unfold qmax
  split_ifs <;> linarith

/-- A clamped-and-rounded score `round2 (qmin 100 x)` with `x ≥ 0` lies in
`[0, 100]`. -/
theorem clamped_score_bounds (x : ℚ) (hx : 0 ≤ x) :
    0 ≤ round2 (qmin 100 x) ∧ round2 (qmin 100 x) ≤ 100 :=
  ⟨round2_nonneg _ (qmin_nonneg _ _ (by norm_num) hx),
   round2_le_100 _ (qmin_le_left _ _)⟩

theorem analyzeLexical_bounds (lex : Lexicon) (seg : String → List String)
    (t : String) :
    0 ≤ (analyzeLexical lex seg t).score ∧ (analyzeLexical lex seg t).score ≤ 100 := by
  unfold analyzeLexical
  dsimp only
  split_ifs with h
  · norm_num
  · exact clamped_score_bounds _ (by positivity)

theorem analyzeSyntactic_bounds (t : String) :
    0 ≤ (analyzeSyntactic t).score ∧ (analyzeSyntactic t).score ≤ 100 := by
  unfold analyzeSyntactic
  dsimp only
  split_ifs with h
  · norm_num
  · exact clamped_score_bounds _ (by positivity)

theorem analyzeStructural_bounds (t : String) :
    0 ≤ (analyzeStructural t).score ∧ (analyzeStructural t).score ≤ 100 := by
  unfold analyzeStructural
  dsimp only
  refine clamped_score_bounds _ ?_
  have h1 : (0 : ℚ) ≤ (if patAny openingPats t.toList then (30 : ℚ) else 0) := by
    positivity
  have h2 : (0 : ℚ) ≤ (if patAny closingPats t.toList then (30 : ℚ) else 0) := by
    positivity
  positivity

theorem analyzeSemantic_bounds (lex : Lexicon) (seg : String → List String)
    (t : String) :
    0 ≤ (analyzeSemantic lex seg t).score ∧ (analyzeSemantic lex seg t).score ≤ 100 := by
  unfold analyzeSemantic
  dsimp only
  split_ifs with h
  · norm_num
  · refine clamped_score_bounds _ ?_
    have h1 := le_qmax_left 0 (50 -
      (((lex.emotionGroups.map fun g =>
        ((seg t).filter fun w => g.contains w).length).sum : ℚ) /
        ((seg t).length : ℚ) * 100) * 10)
    have h2 := le_qmax_left 0 (30 -
      ((((seg t).filter fun w => lex.firstPerson.contains w).length : ℚ) /
        ((seg t).length : ℚ) * 100) * 10)
    positivity

/-- On non-blank input, the fields of `detect` are exactly the advertised
functions of the weighted total. -/
theorem detect_nonblank_fields (lex : Lexicon) (seg : String → List String)
    (t : String) (h : blankInput t = false) :
    (detect lex seg t).confidence = totalScore lex seg t / 100 ∧
    ((detect lex seg t).is_ai = true ↔ 60 ≤ totalScore lex seg t) ∧
    (detect lex seg t).score = round2 (totalScore lex seg t) ∧
    (detect lex seg t).details =
      some { lexical := analyzeLexical lex seg t, syntactic := analyzeSyntactic t,
             structural := analyzeStructural t, semantic := analyzeSemantic lex seg t } := by
  unfold detect totalScore
  rw [h]
  simp [decide_eq_true_iff]

theorem totalScore_bounds (lex : Lexicon) (seg : String → List String)
    (t : String) : 0 ≤ totalScore lex seg t ∧ totalScore lex seg t ≤ 100 := by
  obtain ⟨a1, a2⟩ := analyzeLexical_bounds lex seg t
  obtain ⟨b1, b2⟩ := analyzeSyntactic_bounds t
  obtain ⟨c1, c2⟩ := analyzeStructural_bounds t
  obtain ⟨d1, d2⟩ := analyzeSemantic_bounds lex seg t
  unfold totalScore
  constructor <;> nlinarith

theorem round2_zero : round2 0 = 0 := by
  with_unfolding_all decide

/-! ### Claim theorems -/

/-- C1 (amended): for every text, `detect(t).score` lies in `[0, 100]`,
and `score = round2 (100 * confidence)`; the claimed exact equality
`confidence = score / 100` fails in general because `score` is the
two-decimal rounding of the weighted total while `confidence` is the
unrounded total divided by 100 (see the counterexample). -/
theorem C1_score_bounds_and_rounding (lex : Lexicon)
    (seg : String → List String) (t : String) :
    0 ≤ (detect lex seg t).score ∧ (detect lex seg t).score ≤ 100 ∧
    (detect lex seg t).score = round2 (100 * (detect lex seg t).confidence) := by
  by_cases h : blankInput t
  · simp only [detect, h, if_true]
    refine ⟨le_refl 0, by norm_num, ?_⟩
    rw [show (100 : ℚ) * 0 = 0 by ring, round2_zero]
  · obtain ⟨hc, hi, hs, hd⟩ := detect_nonblank_fields lex seg t (by simp [h])
    obtain ⟨ht0, ht1⟩ := totalScore_bounds lex seg t
    refine ⟨?_, ?_, ?_⟩
    · rw [hs]; exact round2_nonneg _ ht0
    · rw [hs]; exact round2_le_100 _ ht1
    · rw [hs, hc]; congr 1; ring

/-- C1 counterexample: on the text `一二。三四。五六七` (with the
modelled lexicon and a character tokenizer) the weighted total is
16.2325, so `score` rounds to 16.23 while `confidence` stays 0.162325,
and `confidence ≠ score / 100`. -/
theorem C1_counterexample :
    (detect specLexicon segChars "一二。三四。五六七").confidence ≠
      (detect specLexicon segChars "一二。三四。五六七").score / 100 := by
  with_unfolding_all decide

/-- C2 (amended): for every non-blank text, `humanize` with an intensity
outside light/medium/heavy fails with the invalid-intensity error before
any processing; blank input instead returns the identity result without
consulting the intensity (see the counterexample). -/
theorem C2_invalid_intensity_nonblank (lex : Lexicon)
    (seg : String → List String) (r : Rng) (t i : String)
    (hb : blankInput t = false) (h1 : i ≠ "light") (h2 : i ≠ "medium")
    (h3 : i ≠ "heavy") :
    humanize lex seg r t i = Except.error ("Invalid intensity: " ++ i) := by
  simp [humanize, hb, h1, h2, h3]

/-- C2 witness: the invalid-intensity error at a concrete non-blank
input. -/
theorem C2_witness :
    blankInput "你好" = false ∧ "invalid" ≠ "light" ∧
    humanize specLexicon segChars rng0 "你好" "invalid" =
      Except.error ("Invalid intensity: " ++ "invalid") :=
  ⟨by decide, by decide,
    C2_invalid_intensity_nonblank specLexicon segChars rng0 "你好" "invalid"
      (by decide) (by decide) (by decide) (by decide)⟩

/-- C2 counterexample: on empty input with an invalid intensity the code
returns the identity result and raises no error, so the claim's
"including empty and whitespace-only t" fails. -/
theorem C2_counterexample :
    humanize specLexicon segChars rng0 "" "invalid" =
      Except.ok
        { text := "", original_length := 0, modified_length := 0,
          changes := [], change_count := 0, intensity := "invalid" } := by
  with_unfolding_all rfl

/-- C3: on every non-blank text the verdict, confidence and reported
score are the advertised functions of the weighted total
`0.30·lexical + 0.25·syntactic + 0.25·structural + 0.20·semantic` over
the four reported dimension scores: `is_ai ↔ total ≥ 60`,
`confidence = total / 100`, and the reported score is the two-decimal
rounding of the total. -/
theorem C3_combination (lex : Lexicon) (seg : String → List String)
    (t : String) (hb : blankInput t = false) :
    ((detect lex seg t).is_ai = true ↔
      60 ≤ 0.30 * (analyzeLexical lex seg t).score +
        0.25 * (analyzeSyntactic t).score + 0.25 * (analyzeStructural t).score +
        0.20 * (analyzeSemantic lex seg t).score) ∧
    (detect lex seg t).confidence =
      (0.30 * (analyzeLexical lex seg t).score +
        0.25 * (analyzeSyntactic t).score + 0.25 * (analyzeStructural t).score +
        0.20 * (analyzeSemantic lex seg t).score) / 100 ∧
    (detect lex seg t).score =
      round2 (0.30 * (analyzeLexical lex seg t).score +
        0.25 * (analyzeSyntactic t).score + 0.25 * (analyzeStructural t).score +
        0.20 * (analyzeSemantic lex seg t).score) := by
  obtain ⟨hc, hi, hs, hd⟩ := detect_nonblank_fields lex seg t hb
  have he : totalScore lex seg t =
      0.30 * (analyzeLexical lex seg t).score +
        0.25 * (analyzeSyntactic t).score + 0.25 * (analyzeStructural t).score +
        0.20 * (analyzeSemantic lex seg t).score := by
    unfold totalScore; ring
  rw [he] at hc hi hs
  exact ⟨hi, hc, hs⟩

/-- C3 witness: the combination equalities at a concrete non-blank
input. -/
theorem C3_witness :
    blankInput "你好" = false ∧
    (((detect specLexicon segChars "你好").is_ai = true ↔
      60 ≤ 0.30 * (analyzeLexical specLexicon segChars "你好").score +
        0.25 * (analyzeSyntactic "你好").score +
        0.25 * (analyzeStructural "你好").score +
        0.20 * (analyzeSemantic specLexicon segChars "你好").score) ∧
    (detect specLexicon segChars "你好").confidence =
      (0.30 * (analyzeLexical specLexicon segChars "你好").score +
        0.25 * (analyzeSyntactic "你好").score +
        0.25 * (analyzeStructural "你好").score +
        0.20 * (analyzeSemantic specLexicon segChars "你好").score) / 100 ∧
    (detect specLexicon segChars "你好").score =
      round2 (0.30 * (analyzeLexical specLexicon segChars "你好").score +
        0.25 * (analyzeSyntactic "你好").score +
        0.25 * (analyzeStructural "你好").score +
        0.20 * (analyzeSemantic specLexicon segChars "你好").score)) :=
  ⟨by decide, C3_combination specLexicon segChars "你好" (by decide)⟩

/-- C4 (amended): on blank input `detect` returns score 0, `is_ai` false,
confidence 0, a single empty top-level details dictionary (no
per-dimension entries, modelled `none`), text length 0 and no summary
key, raising no error; the claim's "empty per-dimension detail maps"
fails because no per-dimension entries exist at all (see the
counterexample). -/
theorem C4_blank_detect (lex : Lexicon) (seg : String → List String)
    (t : String) (h : blankInput t = true) :
    detect lex seg t =
      { is_ai := false, confidence := 0, score := 0, details := none,
        text_length := 0, summary := none } := by
  simp [detect, h]

/-- C4 witness: the blank-input result at the whitespace-only input
consisting of one space. -/
theorem C4_witness :
    blankInput " " = true ∧
    detect specLexicon segChars " " =
      { is_ai := false, confidence := 0, score := 0, details := none,
        text_length := 0, summary := none } :=
  ⟨by decide, C4_blank_detect specLexicon segChars " " (by decide)⟩

/-- C4 counterexample: the empty-input detection result has score 0 and
`is_ai` false but carries no per-dimension detail maps at all (its
details dictionary is empty), refuting the claim as stated. -/
theorem C4_counterexample :
    ¬((detect specLexicon segChars "").score = 0 ∧
      (detect specLexicon segChars "").is_ai = false ∧
      ∃ d, (detect specLexicon segChars "").details = some d) := by
  rintro ⟨-, -, d, hd⟩
  have h0 : (detect specLexicon segChars "").details = none := by decide
  rw [h0] at hd
  exact Option.noConfusion hd

/-- C6: the summary's main-issue dimension is the stable argmax of the
four dimension scores: the maximum wins and, on ties, the first
dimension in evaluation order lexical, syntactic, structural,
semantic. -/
theorem C6_stable_argmax (total l s st se : ℚ) :
    (generateSummary total l s st se).main_issue = stableArgmaxSpec l s st se := by
  unfold generateSummary pyMaxSnd stableArgmaxSpec
  dsimp only [List.foldl]
  split_ifs <;> simp_all <;> try linarith

/-- C9: composing `generate_report` with `detect` on blank input fails:
the blank-input result omits the summary key, and the report reads it
unconditionally, so the lookup raises a `KeyError`. -/
theorem C9_report_blank_fails (lex : Lexicon) (seg : String → List String)
    (t : String) (h : blankInput t = true) :
    generateReport (detect lex seg t) = Except.error "KeyError: summary" := by
  simp [detect, h, generateReport]

/-- C9 witness: the failing composition at the empty input. -/
theorem C9_witness :
    blankInput "" = true ∧
    generateReport (detect specLexicon segChars "") =
      Except.error "KeyError: summary" :=
  ⟨by decide, C9_report_blank_fails specLexicon segChars "" (by decide)⟩

/-- C5 (amended): the `不仅 X 而且 Y` simplification pass rewrites only
the first two matches found (computed once, leftmost and
non-overlapping), with X and Y matched greedily — not non-greedily as
claimed (see the counterexample) — each bounded to 2–20 characters, and
replaces the i-th processed match with the randomly chosen one of the
three paraphrase templates: the recorded changes are exactly the
`bujinChange` entries over the first two greedy matches. -/
theorem C5_greedy_first_two (r : Rng) (k : Nat) (t : List Char) :
    (adjustStep2 r k t).chs =
      ((findallGreedy t).take 2).mapIdx (bujinChange k r) ∧
    (adjustStep2 r k t).chs.length ≤ 2 := by
  unfold adjustStep2 bujinChange
  rcases h : findallGreedy t with _ | ⟨a, _ | ⟨b, tl⟩⟩ <;>
    simp [List.foldl, List.mapIdx, List.mapIdx.go]

/-- C5 counterexample: on `不仅高效而且快速而且省钱` the source's greedy
match takes X = `高效而且快速`, Y = `省钱`, while the claimed non-greedy
matching would take X = `高效`, Y = `快速`; the simplification pass
therefore rewrites a different construct than the claim describes. -/
theorem C5_counterexample :
    findallGreedy "不仅高效而且快速而且省钱".toList =
      [("高效而且快速".toList, "省钱".toList)] ∧
    findallNonGreedy "不仅高效而且快速而且省钱".toList =
      [("高效".toList, "快速".toList)] ∧
    (adjustStep2 rng0 0 "不仅高效而且快速而且省钱".toList).chs ≠
      (adjustStep2NonGreedy rng0 0 "不仅高效而且快速而且省钱".toList).chs := by
  with_unfolding_all decide

/-- C7 (amended): on any segmentation with at least one token, the
reported lexical score is the two-decimal rounding of
`min(100, 15·highFreqPct + 15·connectorPct + 10·formalPct +
2·qualifierCount + 5·fixedPhraseCount)`, with each percentage a
word-class count over the token count times 100 and fixed phrases counted
by substring containment; the claim's exact (unrounded) equality fails
(see the counterexample). -/
theorem C7_lexical_formula_rounded (lex : Lexicon)
    (seg : String → List String) (t : String) (h : (seg t).length ≠ 0) :
    (analyzeLexical lex seg t).score =
      round2 (qmin 100 (
        15 * ((((seg t).filter fun w => lex.highFreq.contains w).length : ℚ) /
          ((seg t).length : ℚ) * 100) +
        15 * ((((seg t).filter fun w => lex.connectors.contains w).length : ℚ) /
          ((seg t).length : ℚ) * 100) +
        10 * ((((seg t).filter fun w => lex.formalWords.contains w).length : ℚ) /
          ((seg t).length : ℚ) * 100) +
        2 * (((seg t).filter fun w => lex.qualifiers.contains w).length : ℚ) +
        5 * ((lex.fixedPhrases.filter fun ph => containsS t ph).length : ℚ))) := by
  unfold analyzeLexical
  dsimp only
  rw [if_neg h]
  have harg :
      (((seg t).filter fun w => lex.highFreq.contains w).length : ℚ) /
          ((seg t).length : ℚ) * 100 * 15 +
        (((seg t).filter fun w => lex.connectors.contains w).length : ℚ) /
          ((seg t).length : ℚ) * 100 * 15 +
        (((seg t).filter fun w => lex.formalWords.contains w).length : ℚ) /
          ((seg t).length : ℚ) * 100 * 10 +
        (((seg t).filter fun w => lex.qualifiers.contains w).length : ℚ) * 2 +
        ((lex.fixedPhrases.filter fun ph => containsS t ph).length : ℚ) * 5 =
      15 * ((((seg t).filter fun w => lex.highFreq.contains w).length : ℚ) /
          ((seg t).length : ℚ) * 100) +
        15 * ((((seg t).filter fun w => lex.connectors.contains w).length : ℚ) /
          ((seg t).length : ℚ) * 100) +
        10 * ((((seg t).filter fun w => lex.formalWords.contains w).length : ℚ) /
          ((seg t).length : ℚ) * 100) +
        2 * (((seg t).filter fun w => lex.qualifiers.contains w).length : ℚ) +
        5 * ((lex.fixedPhrases.filter fun ph => containsS t ph).length : ℚ) := by
    ring
  rw [harg]

/-- C7 witness: the rounded formula at a concrete two-token input. -/
theorem C7_witness :
    (segChars "你好").length ≠ 0 ∧
    (analyzeLexical specLexicon segChars "你好").score =
      round2 (qmin 100 (
        15 * ((((segChars "你好").filter fun w =>
          specLexicon.highFreq.contains w).length : ℚ) /
          ((segChars "你好").length : ℚ) * 100) +
        15 * ((((segChars "你好").filter fun w =>
          specLexicon.connectors.contains w).length : ℚ) /
          ((segChars "你好").length : ℚ) * 100) +
        10 * ((((segChars "你好").filter fun w =>
          specLexicon.formalWords.contains w).length : ℚ) /
          ((segChars "你好").length : ℚ) * 100) +
        2 * (((segChars "你好").filter fun w =>
          specLexicon.qualifiers.contains w).length : ℚ) +
        5 * ((specLexicon.fixedPhrases.filter fun ph =>
          containsS "你好" ph).length : ℚ))) :=
  ⟨by decide, C7_lexical_formula_rounded specLexicon segChars "你好" (by decide)⟩

/-- C7 counterexample: on `t17` (17 tokens, one high-frequency hit) the
reported score is 88.24 — the rounding of 1500/17 — while the claim's
unrounded formula evaluates to 1500/17, so the claimed equality fails. -/
theorem C7_counterexample :
    (analyzeLexical specLexicon segPairs t17).score ≠
      qmin 100 (
        15 * ((((segPairs t17).filter fun w =>
          specLexicon.highFreq.contains w).length : ℚ) /
          ((segPairs t17).length : ℚ) * 100) +
        15 * ((((segPairs t17).filter fun w =>
          specLexicon.connectors.contains w).length : ℚ) /
          ((segPairs t17).length : ℚ) * 100) +
        10 * ((((segPairs t17).filter fun w =>
          specLexicon.formalWords.contains w).length : ℚ) /
          ((segPairs t17).length : ℚ) * 100) +
        2 * (((segPairs t17).filter fun w =>
          specLexicon.qualifiers.contains w).length : ℚ) +
        5 * ((specLexicon.fixedPhrases.filter fun ph =>
          containsS t17 ph).length : ℚ)) := by
  with_unfolding_all decide

theorem lightStep_len (lex : Lexicon) (r : Rng) (s : HS) (w : String) :
    (lightStep lex r s w).chs.length ≤ s.chs.length + 1 := by
  unfold lightStep
  split_ifs with h1
  · cases h : lookupRepl lex w with
    | none => simp
    | some rs =>
      dsimp only
      split_ifs with h2 <;> simp
  · simp

theorem foldl_lightStep_len (lex : Lexicon) (r : Rng) (l : List String) (s : HS) :
    ((l.foldl (lightStep lex r) s).chs).length ≤ s.chs.length + l.length := by
  induction l generalizing s with
  | nil => simp
  | cons w ws ih =>
    have h1 := ih (lightStep lex r s w)
    have h2 := lightStep_len lex r s w
    simp only [List.foldl_cons, List.length_cons]
    omega

theorem lightStep_id (lex : Lexicon) (r : Rng) (s : HS) (w : String)
    (h : (containsL s.t w.toList && hasRepl lex w) = false) :
    lightStep lex r s w = s := by
  unfold lightStep
  unfold hasRepl at h
  split_ifs with h1
  · cases hl : lookupRepl lex w with
    | none => rfl
    | some rs =>
      rw [h1, hl] at h
      simp only [Bool.true_and] at h
      have hrs : rs = [] := by
        rcases rs with _ | ⟨a, tl⟩
        · rfl
        · simp at h
      simp [hrs]
  · rfl

theorem foldl_lightStep_id (lex : Lexicon) (r : Rng) (l : List String) (s : HS)
    (h : ∀ w ∈ l, (containsL s.t w.toList && hasRepl lex w) = false) :
    l.foldl (lightStep lex r) s = s := by
  induction l with
  | nil => rfl
  | cons w ws ih =>
    have h0 : lightStep lex r s w = s := lightStep_id lex r s w (h w (by simp))
    simp only [List.foldl_cons, h0]
    exact ih fun v hv => h v (by simp [hv])

/-- C8: the light pass iterates over the first 20 high-frequency words
and then the first 10 formal words, replacing at most the first
occurrence of each matching word, so it records at most 30 changes; and
when none of those 30 words occurs in the text with a non-empty
replacement entry, the text is returned unchanged (no other mutation is
performed). -/
theorem C8_light_bounds (lex : Lexicon) (r : Rng) (k : Nat) (t : List Char) :
    (lightHumanize lex r k t).chs.length ≤ 30 ∧
    ((∀ w ∈ lex.highFreq.take 20 ++ lex.formalWords.take 10,
        (containsL t w.toList && hasRepl lex w) = false) →
      (lightHumanize lex r k t).t = t) := by
  constructor
  · unfold lightHumanize
    dsimp only
    have h1 := foldl_lightStep_len lex r (lex.highFreq.take 20) ⟨t, [], k⟩
    have h2 := foldl_lightStep_len lex r (lex.formalWords.take 10)
      ((lex.highFreq.take 20).foldl (lightStep lex r) ⟨t, [], k⟩)
    have l1 : (lex.highFreq.take 20).length ≤ 20 := List.length_take_le _ _
    have l2 : (lex.formalWords.take 10).length ≤ 10 := List.length_take_le _ _
    dsimp only at h1
    simp only [List.length_nil] at h1
    omega
  · intro h
    unfold lightHumanize
    dsimp only
    have e1 : (lex.highFreq.take 20).foldl (lightStep lex r) ⟨t, [], k⟩ = ⟨t, [], k⟩ :=
      foldl_lightStep_id lex r _ _ fun w hw => h w (by simp [hw])
    rw [e1]
    have e2 : (lex.formalWords.take 10).foldl (lightStep lex r) ⟨t, [], k⟩ = ⟨t, [], k⟩ :=
      foldl_lightStep_id lex r _ _ fun w hw => h w (by simp [hw])
    rw [e2]

/-- C8 witness: on a text containing none of the candidate words, the
light pass changes nothing and records no change. -/
theorem C8_witness :
    (∀ w ∈ specLexicon.highFreq.take 20 ++ specLexicon.formalWords.take 10,
        (containsL "普通文本".toList w.toList && hasRepl specLexicon w) = false) ∧
    (lightHumanize specLexicon rng0 0 "普通文本".toList).chs.length ≤ 30 ∧
    (lightHumanize specLexicon rng0 0 "普通文本".toList).t = "普通文本".toList :=
  ⟨by decide, (C8_light_bounds specLexicon rng0 0 "普通文本".toList).1,
    (C8_light_bounds specLexicon rng0 0 "普通文本".toList).2 (by decide)⟩

theorem round2_eighty : round2 80 = 80 := by
  with_unfolding_all decide

/-- C10: on any segmentation with at least one token none of which is a
qualifier, an emotion word, or a first-person marker, the semantic score
is exactly 80 (both penalty terms contribute their full 50 and 30
baselines), so fully neutral text contributes 0.20·80 = 16 points to the
weighted total. -/
theorem C10_neutral_semantic (lex : Lexicon) (seg : String → List String)
    (t : String) (h : (seg t).length ≠ 0)
    (hq : ∀ w ∈ seg t, ¬lex.qualifiers.contains w)
    (he : ∀ w ∈ seg t, ∀ g ∈ lex.emotionGroups, ¬g.contains w)
    (hf : ∀ w ∈ seg t, ¬lex.firstPerson.contains w) :
    (analyzeSemantic lex seg t).score = 80 ∧
    0.20 * (analyzeSemantic lex seg t).score = 16 := by
  have hql : ((seg t).filter fun w => lex.qualifiers.contains w) = [] := by
    rw [List.filter_eq_nil_iff]
    intro w hw
    exact fun hc => hq w hw hc
  have hfl : ((seg t).filter fun w => lex.firstPerson.contains w) = [] := by
    rw [List.filter_eq_nil_iff]
    intro w hw
    exact fun hc => hf w hw hc
  have hel : (lex.emotionGroups.map fun g =>
      ((seg t).filter fun w => g.contains w).length).sum = 0 := by
    apply List.sum_eq_zero
    intro x hx
    rw [List.mem_map] at hx
    obtain ⟨g, hg, rfl⟩ := hx
    have hgl : ((seg t).filter fun w => g.contains w) = [] := by
      rw [List.filter_eq_nil_iff]
      intro w hw
      exact fun hc => he w hw g hg hc
    rw [hgl]
    rfl
  have hmain : (analyzeSemantic lex seg t).score = 80 := by
    unfold analyzeSemantic
    dsimp only
    rw [if_neg h]
    rw [hql, hfl, hel]
    norm_num [qmin, qmax, round2_eighty]
  exact ⟨hmain, by rw [hmain]; norm_num⟩

/-- C10 witness: the neutral-text semantic score at a concrete
three-token input. -/
theorem C10_witness :
    (segChars "一二三").length ≠ 0 ∧
    (analyzeSemantic specLexicon segChars "一二三").score = 80 ∧
    0.20 * (analyzeSemantic specLexicon segChars "一二三").score = 16 :=
  ⟨by decide,
    C10_neutral_semantic specLexicon segChars "一二三" (by decide) (by decide)
      (by decide) (by decide)⟩

end AIW
